import Mathlib

/-!
# Verification of the prefab item namespace / save / load logic

Shallow embedding of `src/studiolibrarymaya/prefabitem.py` and
`src/studiolibrarymaya/prefabclusteritem.py` (SunriseProductions/studiolibrary).

The scene-graph host (Maya `cmds`) is modelled by an explicit `Scene` value:
the namespace table, the set of existing node names, the node-type table,
the attribute table, attribute values, connections, the current selection,
and the set of parenting operations that the host would reject.

Python string formatting `f"{instance:03d}"` is embedded by `pad3`,
`f"{n}"` for an integer by `natRepr`, and `str.split(sep)` for a one-character
separator by `pySplit`.  Python `while` loops are embedded as fuelled
recursion (`search_loop`), with separate theorems showing the fuel used by
the definitions always suffices.
-/

/-! ## Decimal formatting (embedding of Python `f"{n}"` and `f"{n:03d}"`) -/

/-- Decimal digits of `n`, most significant first, via explicit fuel
(structural recursion, so that the kernel can evaluate it).  The fuel
`n + 1` used by `natDigits` always suffices since `n / 10 < n`. -/
def natDigitsAux : Nat → Nat → List Char
  | 0, _ => []
  | fuel + 1, n =>
    if n < 10 then [Nat.digitChar n]
    else natDigitsAux fuel (n / 10) ++ [Nat.digitChar (n % 10)]

/-- Decimal digit list of `n`, most significant first. -/
def natDigits (n : Nat) : List Char := natDigitsAux (n + 1) n

/-- Embedding of Python `f"{n}"` / `str(n)` for a natural number. -/
def natRepr (n : Nat) : String := String.mk (natDigits n)

/-- Embedding of Python `f"{n:03d}"`: the decimal representation of `n`,
left-padded with `'0'` to a minimum width of three characters. -/
def pad3 (n : Nat) : String :=
  String.mk (List.replicate (3 - (natDigits n).length) '0' ++ natDigits n)

/-- Value of one decimal digit character. -/
def digitVal (c : Char) : Nat := c.toNat - 48

/-- Value of a digit list, most significant first. -/
def digitsVal (cs : List Char) : Nat := cs.foldl (fun a c => a * 10 + digitVal c) 0

theorem digitVal_digitChar {d : Nat} (h : d < 10) : digitVal (Nat.digitChar d) = d := by
  revert h; revert d; decide

theorem digitsVal_append_singleton (cs : List Char) (c : Char) :
    digitsVal (cs ++ [c]) = digitsVal cs * 10 + digitVal c := by
  unfold digitsVal
  rw [List.foldl_append]
  rfl

theorem digitsVal_natDigitsAux : ∀ fuel n, n < fuel → digitsVal (natDigitsAux fuel n) = n := by
  intro fuel
  induction fuel with
  | zero => intro n h; omega
  | succ f ih =>
    intro n h
    unfold natDigitsAux
    by_cases h10 : n < 10
    · simp only [if_pos h10]
      unfold digitsVal
      simp [List.foldl, digitVal_digitChar h10]
    · simp only [if_neg h10]
      have hdiv : n / 10 < f := by omega
      rw [digitsVal_append_singleton, ih _ hdiv, digitVal_digitChar (Nat.mod_lt _ (by omega))]
      omega

theorem digitsVal_natDigits (n : Nat) : digitsVal (natDigits n) = n :=
  digitsVal_natDigitsAux (n + 1) n (Nat.lt_succ_self n)

theorem natRepr_injective : Function.Injective natRepr := by
  intro m n h
  have hd : natDigits m = natDigits n := congrArg String.data h
  have := congrArg digitsVal hd
  rwa [digitsVal_natDigits, digitsVal_natDigits] at this

theorem digitsVal_replicate_zero_append (k : Nat) (cs : List Char) :
    digitsVal (List.replicate k '0' ++ cs) = digitsVal cs := by
  unfold digitsVal
  rw [List.foldl_append]
  congr 1
  induction k with
  | zero => rfl
  | succ j ih => simpa [List.replicate_succ, digitVal] using ih

theorem digitsVal_pad3 (n : Nat) : digitsVal (pad3 n).data = n := by
  show digitsVal (List.replicate _ '0' ++ natDigits n) = n
  rw [digitsVal_replicate_zero_append, digitsVal_natDigits]

theorem pad3_injective : Function.Injective pad3 := by
  intro m n h
  have := congrArg (fun s => digitsVal (String.data s)) h
  simpa [digitsVal_pad3] using this

theorem natDigitsAux_ne_nil : ∀ fuel n, 0 < fuel → natDigitsAux fuel n ≠ [] := by
  intro fuel n h
  match fuel with
  | f + 1 =>
    unfold natDigitsAux
    by_cases h10 : n < 10 <;> simp [h10]

theorem natDigits_ne_nil (n : Nat) : natDigits n ≠ [] :=
  natDigitsAux_ne_nil (n + 1) n (Nat.succ_pos n)

/-! ## String helpers -/

/-- Left-cancellation for string append. -/
theorem string_append_left_cancel {a b c : String} (h : a ++ b = a ++ c) : b = c := by
  have hd : a.data ++ b.data = a.data ++ c.data := by
    have h1 := congrArg String.data h
    rwa [String.data_append, String.data_append] at h1
  exact String.ext (List.append_cancel_left hd)

/-- Right-cancellation for string append. -/
theorem string_append_right_cancel {a b c : String} (h : a ++ c = b ++ c) : a = b := by
  have hd : a.data ++ c.data = b.data ++ c.data := by
    have h1 := congrArg String.data h
    rwa [String.data_append, String.data_append] at h1
  exact String.ext (List.append_cancel_right hd)

/-- Splits a character list at every occurrence of the separator `c`,
keeping empty segments — the semantics of Python `str.split(sep)` for a
one-character separator. -/
def splitOnChar (c : Char) : List Char → List (List Char)
  | [] => [[]]
  | x :: xs =>
    if x = c then [] :: splitOnChar c xs
    else
      match splitOnChar c xs with
      | [] => [[x]]
      | y :: ys => (x :: y) :: ys

/-- Embedding of Python `s.split(sep)` for a one-character separator `sep`. -/
def pySplit (c : Char) (s : String) : List String :=
  (splitOnChar c s.data).map String.mk

theorem splitOnChar_ne_nil (c : Char) : ∀ cs, splitOnChar c cs ≠ [] := by
  intro cs
  induction cs with
  | nil => simp [splitOnChar]
  | cons x xs ih =>
    unfold splitOnChar
    by_cases hx : x = c
    · simp [hx]
    · simp only [if_neg hx]
      match h : splitOnChar c xs with
      | [] => exact absurd h ih
      | y :: ys => simp

theorem pySplit_ne_nil (c : Char) (s : String) : pySplit c s ≠ [] := by
  unfold pySplit
  simp [splitOnChar_ne_nil]

/-! ## Scene model (Maya host state consumed by the code under test) -/

/-- A snapshot of the Maya scene state, as far as the code under test
observes and mutates it:
- `namespaces`: the live namespace table
  (`cmds.namespaceInfo(listOnlyNamespaces=True, recurse=True)`);
- `nodes`: the names of existing nodes (`cmds.objExists`);
- `nodeTypes`: pairs `(node, type)` (`cmds.nodeType`);
- `attrs`: pairs `(node, attr)` for which the attribute exists
  (`cmds.attributeQuery(attr, node=node, exists=True)`);
- `attrVals`: triples `(node, attr, value)` (`cmds.getAttr`);
- `connections`: pairs `(plug, node)` (`cmds.listConnections`);
- `selection`: the current selection (`cmds.ls(sl=True)`), in order;
- `parents`: recorded `(child, parent)` pairs made by `cmds.parent`;
- `parentFails`: the `(child, parent)` pairs for which the host would
  raise from `cmds.parent` (e.g. locked or already-parented nodes). -/
structure Scene where
  namespaces : List String
  nodes : List String
  nodeTypes : List (String × String)
  attrs : List (String × String)
  attrVals : List (String × String × String)
  connections : List (String × String)
  selection : List String
  parents : List (String × String)
  parentFails : List (String × String)
deriving DecidableEq

/-- `cmds.objExists(name)`. -/
def objExists (sc : Scene) (name : String) : Bool := decide (name ∈ sc.nodes)

/-- `cmds.attributeQuery(attr, node=node, exists=True)`. -/
def attrExists (sc : Scene) (node attr : String) : Bool := decide ((node, attr) ∈ sc.attrs)

/-- `cmds.getAttr(f"{node}.{attr}")` (string attributes only). -/
def getAttr (sc : Scene) (node attr : String) : String :=
  match sc.attrVals.find? (fun t => t.1 == node && t.2.1 == attr) with
  | some t => t.2.2
  | none => ""

/-- `cmds.nodeType(node)`. -/
def nodeTypeOf (sc : Scene) (node : String) : String :=
  match sc.nodeTypes.find? (fun t => t.1 == node) with
  | some t => t.2
  | none => ""

/-- `cmds.listConnections(f"{node}.{attr}")`. -/
def listConnections (sc : Scene) (node attr : String) : List String :=
  sc.connections.filterMap (fun p => if p.1 == node ++ "." ++ attr then some p.2 else none)

/-- `cmds.namespace(exists=ns)`. -/
def nsExists (sc : Scene) (ns : String) : Bool := decide (ns ∈ sc.namespaces)

/-- `cmds.namespace(add=ns)`: registers a namespace in the namespace table. -/
def nsAdd (sc : Scene) (ns : String) : Scene :=
  { sc with namespaces := ns :: sc.namespaces }

/-- `cmds.namespace(mv=(ns, target), f=True)`: every node whose name is
prefixed by `ns ++ ":"` is renamed so that the prefix becomes
`target ++ ":"`; other nodes are untouched. -/
def nsMove (sc : Scene) (ns target : String) : Scene :=
  { sc with
    nodes := sc.nodes.map (fun n =>
      if (ns ++ ":").data.isPrefixOf n.data
      then target ++ ":" ++ String.mk (n.data.drop (ns.data.length + 1))
      else n) }

/-- `cmds.namespace(rm=ns, force=True)`: removes the entry from the
namespace table (the table is a set, so every occurrence goes). -/
def nsRemove (sc : Scene) (ns : String) : Scene :=
  { sc with namespaces := sc.namespaces.filter (fun x => x ≠ ns) }

/-! ## The namespace allocator search loop -/

/-- Embedding of the `while` search loop shared by `get_namespace_from_cache`
(`while keepGoing`) and `get_namespace_from_root` (`while True`):
starting from index `i`, return the first index at which the collision
predicate `p` is false, giving up (`none`) when the fuel runs out. -/
def search_loop (p : Nat → Bool) : Nat → Nat → Option Nat
  | 0, _ => none
  | fuel + 1, i => if p i then search_loop p fuel (i + 1) else some i

theorem search_loop_spec (p : Nat → Bool) :
    ∀ fuel i j, search_loop p fuel i = some j →
      i ≤ j ∧ p j = false ∧ ∀ k, i ≤ k → k < j → p k = true := by
  intro fuel
  induction fuel with
  | zero => intro i j h; simp [search_loop] at h
  | succ f ih =>
    intro i j h
    unfold search_loop at h
    by_cases hp : p i
    · rw [if_pos hp] at h
      obtain ⟨h1, h2, h3⟩ := ih (i + 1) j h
      refine ⟨by omega, h2, ?_⟩
      intro k hk1 hk2
      rcases Nat.eq_or_lt_of_le hk1 with heq | hlt
      · rwa [heq] at hp
      · exact h3 k hlt hk2
    · rw [if_neg hp] at h
      cases h
      exact ⟨Nat.le_refl _, Bool.of_not_eq_true hp, fun k hk1 hk2 => by omega⟩

theorem search_loop_isSome (p : Nat → Bool) :
    ∀ fuel i, (∃ n, i ≤ n ∧ n < i + fuel ∧ p n = false) →
      (search_loop p fuel i).isSome = true := by
  intro fuel
  induction fuel with
  | zero => intro i ⟨n, h1, h2, _⟩; omega
  | succ f ih =>
    intro i ⟨n, h1, h2, h3⟩
    unfold search_loop
    by_cases hp : p i
    · rw [if_pos hp]
      have hne : i ≠ n := by
        intro he
        rw [he] at hp
        rw [hp] at h3
        cases h3
      exact ih (i + 1) ⟨n, by omega, by omega, h3⟩
    · simp [if_neg hp]

/-- Pigeonhole: an injective stream of candidate strings cannot stay inside
a finite list of used strings for `used.length + 1` steps. -/
theorem exists_free_candidate (f : Nat → String) (hf : Function.Injective f)
    (used : List String) : ∃ n, n ≤ used.length ∧ f n ∉ used := by
  by_contra hall
  push_neg at hall
  have hsub : (Finset.range (used.length + 1)).image f ⊆ used.toFinset := by
    intro x hx
    obtain ⟨n, hn, rfl⟩ := Finset.mem_image.mp hx
    exact List.mem_toFinset.mpr (hall n (by simpa using Nat.lt_succ_iff.mp (Finset.mem_range.mp hn)))
  have hcard := Finset.card_le_card hsub
  rw [Finset.card_image_of_injective _ hf, Finset.card_range] at hcard
  have := used.toFinset_card_le
  omega

/-! ## Embeddings of the functions under test (`prefabitem.py`) -/

/-- `PREFAB_NAME_ATTR` (prefabitem.py line 33). -/
def PREFAB_NAME_ATTR : String := "prefab_name"

/-- `PrefabItem.IMPORT_NAMESPACE`. -/
def IMPORT_NAMESPACE : String := "PREFAB_IMPORT_TEMP"

/-- `PrefabClusterItem.IMPORT_NAMESPACE`. -/
def CLUSTER_IMPORT_NAMESPACE : String := "PREFAB_CLUSTER"

/-- One namespace candidate of the allocator loops:
`f"{base}_{instance:03d}"` (prefabitem.py lines 214-215 and 251). -/
def ns_candidate (base : String) (i : Nat) : String := base ++ "_" ++ pad3 i

/-- `get_cache_from_root` (prefabitem.py lines 164-183): checks the
`isPrefab` marker, checks that a cache node is linked through the
`usd_cycle_cache` message attribute, and returns the first connection
(`cmds.listConnections(...)[0]`; an empty connection list makes the
subscript raise, embedded as the third error case). -/
def get_cache_from_root (sc : Scene) (root_node : String) : Except String String :=
  if !attrExists sc root_node "isPrefab" then
    Except.error ("The given node " ++ root_node ++ " is note a valid prefab rig!")
  else if !attrExists sc root_node "usd_cycle_cache" then
    Except.error ("The given node " ++ root_node ++ " has no USD cache linked to it!")
  else
    match listConnections sc root_node "usd_cycle_cache" with
    | [] => Except.error ("The node " ++ root_node ++ " has nothing connected to usd_cycle_cache")
    | c :: _ => Except.ok c

/-- `get_namespace_from_cache` (prefabitem.py lines 185-226): strips the
namespace prefix of the cache node (`cacheNode.split(":")[-1]`), splits the
short name on `"_"` and requires exactly six fields, builds the base
namespace from the first five fields, then searches for the first instance
number whose fully qualified node `f"{namespace}:prefab"` does not exist.
The `while keepGoing` loop is embedded with fuel `sc.nodes.length + 1`,
which is proved sufficient below, so the `none` branch is unreachable. -/
def get_namespace_from_cache (sc : Scene) (cacheNode : String) : Except String String :=
  let shortName := (pySplit ':' cacheNode).getLastD ""
  match pySplit '_' shortName with
  | [asset_code, asset_descriptor, asset_mod, cycle_name, cycle_descriptor, _cache_version] =>
    let base := asset_code ++ "_" ++ asset_descriptor ++ "_" ++ asset_mod ++ "_"
      ++ cycle_name ++ "_" ++ cycle_descriptor
    match search_loop (fun i => objExists sc (ns_candidate base i ++ ":prefab"))
        (sc.nodes.length + 1) 0 with
    | some i => Except.ok (ns_candidate base i)
    | none => Except.error "allocator loop ran out of fuel"
  | _ => Except.error
      "Invalid name - Could not extract: asset_code, asset_descriptor, asset_mod, cycle_name, cycle_descriptor, cache_version"

/-- `get_namespace_from_root` (prefabitem.py lines 228-257): returns `none`
when the root node has no `prefab_name` attribute; otherwise reads the base
namespace from that attribute and searches for the first instance number
whose candidate namespace is not in the live namespace table.  The
`while True` loop is embedded with fuel `namespaces.length + 1`, which is
proved sufficient below. -/
def get_namespace_from_root (sc : Scene) (root_node : String) : Option String :=
  if attrExists sc root_node PREFAB_NAME_ATTR then
    let base_namespace := getAttr sc root_node PREFAB_NAME_ATTR
    let all_namespaces := sc.namespaces
    (search_loop (fun i => decide (ns_candidate base_namespace i ∈ all_namespaces))
      (all_namespaces.length + 1) 0).map (fun i => ns_candidate base_namespace i)
  else none

/-- `swap_namespace` (prefabitem.py lines 89-109): raises when `ns` does
not exist, creates `target_ns` when absent, moves the contents of `ns` to
`target_ns`, then deletes `ns`. -/
def swap_namespace (sc : Scene) (ns target_ns : String) : Except String Scene :=
  if !nsExists sc ns then
    Except.error ("The given namespace " ++ ns ++ " does not exist in this scene!")
  else
    let sc1 := if !nsExists sc target_ns then nsAdd sc target_ns else sc
    let sc2 := nsMove sc1 ns target_ns
    Except.ok (nsRemove sc2 ns)

/-- `group_prefab` (prefabitem.py lines 289-314): creates the grouping
transform when it does not exist, then parents the root node to it; a
failure of `cmds.parent` is caught and turned into `False`. -/
def group_prefab (sc : Scene) (root_node group_name : String) : Bool × Scene :=
  let pair :=
    if !objExists sc group_name then
      (group_name,
        { sc with
          nodes := group_name :: sc.nodes
          nodeTypes := (group_name, "transform") :: sc.nodeTypes })
    else (group_name, sc)
  let grp := pair.1
  let sc1 := pair.2
  if decide ((root_node, grp) ∈ sc1.parentFails) then (false, sc1)
  else (true, { sc1 with parents := (root_node, grp) :: sc1.parents })

/-- `group_prefab_cluster` (prefabclusteritem.py lines 81-106): the body is
identical to `group_prefab` (only the log strings differ). -/
def group_prefab_cluster (sc : Scene) (root_node group_name : String) : Bool × Scene :=
  let pair :=
    if !objExists sc group_name then
      (group_name,
        { sc with
          nodes := group_name :: sc.nodes
          nodeTypes := (group_name, "transform") :: sc.nodeTypes })
    else (group_name, sc)
  let grp := pair.1
  let sc1 := pair.2
  if decide ((root_node, grp) ∈ sc1.parentFails) then (false, sc1)
  else (true, { sc1 with parents := (root_node, grp) :: sc1.parents })

/-! ## Embeddings of the item methods -/

/-- The selection validation of `PrefabItem.save` (prefabitem.py lines
337-349): the selected transforms are filtered to those carrying the
`isPrefab` attribute; an empty or multi-element result raises, otherwise
the method delegates to the generic file save (`Except.ok ()`). -/
def PrefabItem_save (sc : Scene) : Except String Unit :=
  let sel := sc.selection.filter (fun x => nodeTypeOf sc x == "transform")
  let sel := sel.filter (fun x => attrExists sc x "isPrefab")
  if sel = [] ∨ sel.length > 1 then
    Except.error "Please select a single Prefab rig root transform."
  else Except.ok ()

/-- The selection validation of `PrefabClusterItem.save`
(prefabclusteritem.py lines 179-186), filtering on `isPrefabCluster`. -/
def PrefabClusterItem_save (sc : Scene) : Except String Unit :=
  let sel := sc.selection.filter (fun x => nodeTypeOf sc x == "transform")
  let sel := sel.filter (fun x => attrExists sc x "isPrefabCluster")
  if sel = [] ∨ sel.length > 1 then
    Except.error "Please select a single PrefabCluster transform."
  else Except.ok ()

/-- The root-locating scan of `_load_imported` (prefabitem.py lines
391-399 and prefabclusteritem.py lines 250-258): the first imported node
of type `transform` carrying the marker attribute. -/
def find_root_node (sc : Scene) (new_nodes : List String) (marker : String) : Option String :=
  new_nodes.find? (fun x => nodeTypeOf sc x == "transform" && attrExists sc x marker)

/-- The root-locating stage with the `if not root_node: raise` check
(prefabitem.py lines 401-402, prefabclusteritem.py lines 260-261).
Python truthiness makes an empty node name fall into the error branch. -/
def locate_root (sc : Scene) (new_nodes : List String) (marker errMsg : String) :
    Except String String :=
  match find_root_node sc new_nodes marker with
  | some r => if r = "" then Except.error errMsg else Except.ok r
  | none => Except.error errMsg

/-- The namespace-resolving stage of `PrefabItem._load_imported`
(prefabitem.py lines 405-409): `get_cache_from_root` runs first and its
exception propagates; then
`get_namespace_from_root(root) or get_namespace_from_cache(cache)`
(Python `or` also falls through on an empty string). -/
def resolve_namespace (sc : Scene) (root_node : String) : Except String String :=
  match get_cache_from_root sc root_node with
  | Except.error e => Except.error e
  | Except.ok cache_node =>
    match get_namespace_from_root sc root_node with
    | some ns => if ns = "" then get_namespace_from_cache sc cache_node else Except.ok ns
    | none => get_namespace_from_cache sc cache_node

/-- The namespace choice of `PrefabClusterItem._load_imported`
(prefabclusteritem.py lines 266-270):

    duplicate_cluster = root_node.split(":")[-1]
    new_namespace = f"{duplicate_cluster}_0"
    duplicate_clusters = cmds.ls(f"*:{duplicate_cluster}")
    if duplicate_cluster:
        new_namespace = f"{duplicate_cluster}_{len(duplicate_cluster)}"

(`duplicate_clusters` is computed but never used; the `if` tests the
truthiness of the short name itself, and the suffix is its length.) -/
def cluster_new_namespace (root_node : String) : String :=
  let duplicate_cluster := (pySplit ':' root_node).getLastD ""
  let new_namespace := duplicate_cluster ++ "_0"
  if duplicate_cluster ≠ "" then
    duplicate_cluster ++ "_" ++ natRepr duplicate_cluster.length
  else new_namespace

/-! ## Properties of the namespace candidates -/

theorem ns_candidate_injective (base : String) : Function.Injective (ns_candidate base) := by
  intro m n h
  exact pad3_injective (string_append_left_cancel (a := base ++ "_") h)

theorem ns_candidate_prefab_injective (base : String) :
    Function.Injective (fun i => ns_candidate base i ++ ":prefab") := by
  intro m n h
  exact ns_candidate_injective base (string_append_right_cancel h)

theorem pad3_ne_empty (n : Nat) : pad3 n ≠ "" := by
  intro h
  have hd := congrArg String.data h
  have : (List.replicate (3 - (natDigits n).length) '0' ++ natDigits n) = ([] : List Char) := hd
  rcases List.append_eq_nil.mp this with ⟨-, h2⟩
  exact natDigits_ne_nil n h2

theorem ns_candidate_ne_empty (base : String) (n : Nat) : ns_candidate base n ≠ "" := by
  intro h
  have hd := congrArg String.data h
  rw [ns_candidate, String.data_append, String.data_append] at hd
  rcases List.append_eq_nil.mp hd with ⟨-, h2⟩
  exact pad3_ne_empty n (String.ext h2)

/-- With fuel `used.length + 1`, the allocator search loop over an injective
candidate stream always finds a free candidate. -/
theorem search_loop_mem_isSome (f : Nat → String) (hf : Function.Injective f)
    (used : List String) :
    (search_loop (fun i => decide (f i ∈ used)) (used.length + 1) 0).isSome = true := by
  obtain ⟨n, hn, hfree⟩ := exists_free_candidate f hf used
  exact search_loop_isSome _ _ 0 ⟨n, Nat.zero_le n, by omega, by simpa using hfree⟩

/-- Full characterisation of `get_namespace_from_root` when the root node
carries the `prefab_name` attribute: the result is the candidate at the
smallest free instance number. -/
theorem get_namespace_from_root_spec (sc : Scene) (root_node : String)
    (hattr : attrExists sc root_node PREFAB_NAME_ATTR = true) :
    ∃ n, get_namespace_from_root sc root_node =
        some (ns_candidate (getAttr sc root_node PREFAB_NAME_ATTR) n) ∧
      ns_candidate (getAttr sc root_node PREFAB_NAME_ATTR) n ∉ sc.namespaces ∧
      ∀ m, m < n → ns_candidate (getAttr sc root_node PREFAB_NAME_ATTR) m ∈ sc.namespaces := by
  have hsome := search_loop_mem_isSome (ns_candidate (getAttr sc root_node PREFAB_NAME_ATTR))
    (ns_candidate_injective _) sc.namespaces
  obtain ⟨n, hn⟩ := Option.isSome_iff_exists.mp hsome
  obtain ⟨-, hfree, hmin⟩ := search_loop_spec _ _ _ _ hn
  refine ⟨n, ?_, ?_, ?_⟩
  · simp only [get_namespace_from_root, hattr, if_true]
    rw [hn]
    rfl
  · simpa using hfree
  · intro m hm
    simpa using hmin m (Nat.zero_le m) hm

/-- C1: for every base string and every set of used namespaces, the
allocator `get_namespace_from_root` returns `f"{base}_{n:03d}"` for the
smallest free instance number `n`; with used-set
`[base_000, base_001]` it returns `base_002`, with an empty used-set it
returns `base_000`, and the returned namespace is never a member of the
used-set. -/
theorem get_namespace_from_root_first_free
    (sc : Scene) (root_node base : String) (used : List String)
    (hattr : attrExists sc root_node PREFAB_NAME_ATTR = true)
    (hbase : getAttr sc root_node PREFAB_NAME_ATTR = base)
    (hused : sc.namespaces = used) :
    ∃ n, get_namespace_from_root sc root_node = some (ns_candidate base n) ∧
      ns_candidate base n ∉ used ∧
      (∀ m, m < n → ns_candidate base m ∈ used) ∧
      (used = [] → n = 0) ∧
      (used = [ns_candidate base 0, ns_candidate base 1] → n = 2) := by
  obtain ⟨n, h1, h2, h3⟩ := get_namespace_from_root_spec sc root_node hattr
  rw [hbase] at h1 h2 h3
  rw [hused] at h2 h3
  refine ⟨n, h1, h2, h3, ?_, ?_⟩
  · intro h0
    rcases Nat.eq_zero_or_pos n with rfl | hpos
    · rfl
    · have := h3 0 hpos
      rw [h0] at this
      cases this
  · intro h01
    rw [h01] at h2 h3
    have inj := ns_candidate_injective base
    have hn0 : n ≠ 0 := by
      rintro rfl
      exact h2 (List.mem_cons_self _ _)
    have hn1 : n ≠ 1 := by
      rintro rfl
      exact h2 (List.mem_cons_of_mem _ (List.mem_cons_self _ _))
    have hn3 : n < 3 := by
      by_contra hge
      have h2mem := h3 2 (by omega)
      rcases List.mem_cons.mp h2mem with he | he
      · exact absurd (inj he) (by omega)
      · rcases List.mem_cons.mp he with he2 | he2
        · exact absurd (inj he2) (by omega)
        · cases he2
    omega

/-- A test scene for the C1 witness: two instances of `base` in the
namespace table, and a root node whose `prefab_name` attribute is `base`. -/
def sceneC1 : Scene :=
  { namespaces := ["base_000", "base_001"]
    nodes := []
    nodeTypes := []
    attrs := [("rootW", "prefab_name")]
    attrVals := [("rootW", "prefab_name", "base")]
    connections := []
    selection := []
    parents := []
    parentFails := [] }

/-- Witness for C1 at a concrete scene. -/
theorem get_namespace_from_root_first_free_witness :
    get_namespace_from_root sceneC1 "rootW" = some "base_002" := by
  obtain ⟨n, h1, -, -, -, h5⟩ :=
    get_namespace_from_root_first_free sceneC1 "rootW" "base" ["base_000", "base_001"]
      (by decide) (by decide) rfl
  rw [h5 (by decide)] at h1
  rw [h1]
  decide

/-- C9: the allocator search loops always terminate — for every base string
and every finite scene, fuel `used.length + 1` already finds a free
candidate, both for the namespace-table variant (`get_namespace_from_root`)
and for the node-existence variant (`get_namespace_from_cache`). -/
theorem allocator_loops_terminate (sc : Scene) (base : String) :
    (search_loop (fun i => decide (ns_candidate base i ∈ sc.namespaces))
        (sc.namespaces.length + 1) 0).isSome = true ∧
    (search_loop (fun i => objExists sc (ns_candidate base i ++ ":prefab"))
        (sc.nodes.length + 1) 0).isSome = true := by
  constructor
  · exact search_loop_mem_isSome (ns_candidate base) (ns_candidate_injective base) sc.namespaces
  · exact search_loop_mem_isSome (fun i => ns_candidate base i ++ ":prefab")
      (ns_candidate_prefab_injective base) sc.nodes

/-! ## The cache-node name parser and its allocator (C4, C7) -/

/-- The format error message raised when the cache node short name does not
split into six fields (prefabitem.py line 198). -/
def cache_format_error : String :=
  "Invalid name - Could not extract: asset_code, asset_descriptor, asset_mod, cycle_name, cycle_descriptor, cache_version"

/-- The short name of a cache node: `cacheNode.split(":")[-1]`
(prefabitem.py line 195). -/
def cache_short_name (cacheNode : String) : String :=
  (pySplit ':' cacheNode).getLastD ""

/-- Success characterisation of `get_namespace_from_cache`: when the short
name splits into exactly six fields, the parse succeeds and the namespace
is built from the first five fields in order, with the smallest instance
number whose qualified node `namespace:prefab` does not exist. -/
theorem get_namespace_from_cache_spec (sc : Scene) (cacheNode : String)
    (a b c d e f : String)
    (hsplit : pySplit '_' (cache_short_name cacheNode) = [a, b, c, d, e, f]) :
    ∃ n, get_namespace_from_cache sc cacheNode =
        Except.ok (ns_candidate (a ++ "_" ++ b ++ "_" ++ c ++ "_" ++ d ++ "_" ++ e) n) ∧
      (ns_candidate (a ++ "_" ++ b ++ "_" ++ c ++ "_" ++ d ++ "_" ++ e) n ++ ":prefab")
        ∉ sc.nodes ∧
      ∀ m, m < n →
        (ns_candidate (a ++ "_" ++ b ++ "_" ++ c ++ "_" ++ d ++ "_" ++ e) m ++ ":prefab")
          ∈ sc.nodes := by
  have hsplit' : pySplit '_' ((pySplit ':' cacheNode).getLastD "") = [a, b, c, d, e, f] := hsplit
  have hsome := search_loop_mem_isSome
    (fun i => ns_candidate (a ++ "_" ++ b ++ "_" ++ c ++ "_" ++ d ++ "_" ++ e) i ++ ":prefab")
    (ns_candidate_prefab_injective _) sc.nodes
  obtain ⟨n, hn⟩ := Option.isSome_iff_exists.mp hsome
  obtain ⟨-, hfree, hmin⟩ := search_loop_spec _ _ _ _ hn
  refine ⟨n, ?_, ?_, ?_⟩
  · simp only [get_namespace_from_cache, hsplit']
    have hn' : search_loop
        (fun i => objExists sc
          (ns_candidate (a ++ "_" ++ b ++ "_" ++ c ++ "_" ++ d ++ "_" ++ e) i ++ ":prefab"))
        (sc.nodes.length + 1) 0 = some n := hn
    rw [hn']
  · simpa using hfree
  · intro m hm
    simpa using hmin m (Nat.zero_le m) hm

/-- Failure characterisation of `get_namespace_from_cache`: any field count
other than six raises the format error. -/
theorem get_namespace_from_cache_error_of_not_six (sc : Scene) (cacheNode : String)
    (h : (pySplit '_' (cache_short_name cacheNode)).length ≠ 6) :
    get_namespace_from_cache sc cacheNode = Except.error cache_format_error := by
  have h' : (pySplit '_' ((pySplit ':' cacheNode).getLastD "")).length ≠ 6 := h
  unfold get_namespace_from_cache
  rcases hl : pySplit '_' ((pySplit ':' cacheNode).getLastD "") with - | ⟨a, - | ⟨b, - | ⟨c,
    - | ⟨d, - | ⟨e, - | ⟨f, - | ⟨g, rest⟩⟩⟩⟩⟩⟩⟩ <;>
    simp only [hl] at h' ⊢ <;> first | rfl | (exfalso; exact h' rfl)

/-- A list of length six is literally a six-element list. -/
theorem list_length_six {α : Type} (l : List α) (h : l.length = 6) :
    ∃ a b c d e f, l = [a, b, c, d, e, f] := by
  rcases l with - | ⟨a, - | ⟨b, - | ⟨c, - | ⟨d, - | ⟨e, - | ⟨f, - | ⟨g, rest⟩⟩⟩⟩⟩⟩⟩ <;>
    first
      | exact ⟨_, _, _, _, _, _, rfl⟩
      | (simp only [List.length_cons, List.length_nil] at h; omega)

/-- C4: the cache-node name parser succeeds exactly when the short name
splits on `"_"` into exactly six fields, in which case the result namespace
is built from those fields in order; for every other field count it raises
the format error. -/
theorem cache_name_parser_six_fields (sc : Scene) (cacheNode : String) :
    (get_namespace_from_cache sc cacheNode = Except.error cache_format_error ↔
      (pySplit '_' (cache_short_name cacheNode)).length ≠ 6) ∧
    (∀ a b c d e f, pySplit '_' (cache_short_name cacheNode) = [a, b, c, d, e, f] →
      ∃ n, get_namespace_from_cache sc cacheNode =
        Except.ok (ns_candidate (a ++ "_" ++ b ++ "_" ++ c ++ "_" ++ d ++ "_" ++ e) n)) := by
  constructor
  · constructor
    · intro herr hlen
      obtain ⟨a, b, c, d, e, f, hl⟩ :=
        list_length_six (pySplit '_' (cache_short_name cacheNode)) hlen
      obtain ⟨n, hok, -, -⟩ := get_namespace_from_cache_spec sc cacheNode a b c d e f hl
      rw [hok] at herr
      cases herr
    · intro hlen
      exact get_namespace_from_cache_error_of_not_six sc cacheNode hlen
  · intro a b c d e f hl
    obtain ⟨n, hok, -, -⟩ := get_namespace_from_cache_spec sc cacheNode a b c d e f hl
    exact ⟨n, hok⟩

/-- An empty test scene for the C4 witness. -/
def sceneEmpty : Scene :=
  { namespaces := []
    nodes := []
    nodeTypes := []
    attrs := []
    attrVals := []
    connections := []
    selection := []
    parents := []
    parentFails := [] }

/-- Witness for C4: the documented example cache name parses into six
fields and succeeds, and `"badname"` fails with the format error. -/
theorem cache_name_parser_six_fields_witness :
    (∃ n, get_namespace_from_cache sceneEmpty "c027_shepherd_m00_tall_dancing_03" =
      Except.ok (ns_candidate "c027_shepherd_m00_tall_dancing" n)) ∧
    get_namespace_from_cache sceneEmpty "badname" = Except.error cache_format_error := by
  constructor
  · obtain ⟨n, hok⟩ :=
      (cache_name_parser_six_fields sceneEmpty "c027_shepherd_m00_tall_dancing_03").2
        "c027" "shepherd" "m00" "tall" "dancing" "03" (by decide)
    exact ⟨n, hok⟩
  · exact (cache_name_parser_six_fields sceneEmpty "badname").1.mpr (by decide)

/-! ## C7: the two allocator variants disagree -/

/-- A scene in which the namespace `c027_shepherd_m00_tall_dancing_000`
exists in the namespace table but the node
`c027_shepherd_m00_tall_dancing_000:prefab` does not exist, and a root node
`rig` carries `prefab_name = "c027_shepherd_m00_tall_dancing"`. -/
def sceneC7 : Scene :=
  { namespaces := ["c027_shepherd_m00_tall_dancing_000"]
    nodes := []
    nodeTypes := []
    attrs := [("rig", "prefab_name")]
    attrVals := [("rig", "prefab_name", "c027_shepherd_m00_tall_dancing")]
    connections := []
    selection := []
    parents := []
    parentFails := [] }

/-- C7: the node-existence variant (`get_namespace_from_cache`) and the
namespace-table variant (`get_namespace_from_root`) are not equivalent:
in `sceneC7` they choose different namespaces for the same base. -/
theorem allocator_variants_disagree :
    ∃ ns1 ns2,
      get_namespace_from_cache sceneC7 "c027_shepherd_m00_tall_dancing_03" = Except.ok ns1 ∧
      get_namespace_from_root sceneC7 "rig" = some ns2 ∧
      ns1 ≠ ns2 ∧ ns1 ∈ sceneC7.namespaces := by
  refine ⟨"c027_shepherd_m00_tall_dancing_000", "c027_shepherd_m00_tall_dancing_001",
    rfl, ?_, ?_, ?_⟩ <;> decide

/-! ## C2: the cluster load namespace choice can collide -/

/-- A scene that already contains the namespace `cluster_7` — the state
after a first load of a cluster whose root short name is `cluster`. -/
def sceneC2 : Scene :=
  { namespaces := ["cluster_7"]
    nodes := []
    nodeTypes := []
    attrs := []
    attrVals := []
    connections := []
    selection := []
    parents := []
    parentFails := [] }

/-- C2: the namespace chosen by `PrefabClusterItem._load_imported` is
`f"{short}_{len(short)}"` independently of the scene, so on a second load
of the same item it picks a namespace that already exists in the scene's
namespace table. -/
theorem cluster_load_namespace_collides :
    cluster_new_namespace "PREFAB_CLUSTER:cluster" = "cluster_7" ∧
    cluster_new_namespace "PREFAB_CLUSTER:cluster" ∈ sceneC2.namespaces := by
  have h : cluster_new_namespace "PREFAB_CLUSTER:cluster" = "cluster_7" := by decide
  refine ⟨h, ?_⟩
  rw [h]
  decide

/-! ## C3: namespace resolution in the load pipeline -/

/-- A scene whose root node is a prefab with a recorded `prefab_name`
attribute but **no** `usd_cycle_cache` connection. -/
def sceneC3x : Scene :=
  { namespaces := []
    nodes := ["root"]
    nodeTypes := [("root", "transform")]
    attrs := [("root", "isPrefab"), ("root", "prefab_name")]
    attrVals := [("root", "prefab_name", "base")]
    connections := []
    selection := []
    parents := []
    parentFails := [] }

/-- C3 counterexample: a root that carries `prefab_name` but has no linked
cache node makes the load fail while resolving the namespace, because
`get_cache_from_root` runs unconditionally before the attribute is even
consulted — refuting "for every imported root that has the prefab_name
attribute, the load succeeds in resolving a namespace regardless of
whether a cache node is linked". -/
theorem resolve_namespace_fails_without_cache_link :
    attrExists sceneC3x "root" PREFAB_NAME_ATTR = true ∧
    resolve_namespace sceneC3x "root" =
      Except.error "The given node root has no USD cache linked to it!" := by
  exact ⟨by decide, rfl⟩

/-- C3 amended: the cache node is fetched first and its failure fails the
load even when `prefab_name` is present; when the cache link succeeds, the
namespace is taken from the `prefab_name` attribute if the root carries it,
and only otherwise derived from the cache node. -/
theorem resolve_namespace_cache_first (sc : Scene) (root_node : String) :
    (∀ e, get_cache_from_root sc root_node = Except.error e →
      resolve_namespace sc root_node = Except.error e) ∧
    (∀ cache_node, get_cache_from_root sc root_node = Except.ok cache_node →
      (attrExists sc root_node PREFAB_NAME_ATTR = true →
        ∃ n, resolve_namespace sc root_node =
          Except.ok (ns_candidate (getAttr sc root_node PREFAB_NAME_ATTR) n)) ∧
      (attrExists sc root_node PREFAB_NAME_ATTR = false →
        resolve_namespace sc root_node = get_namespace_from_cache sc cache_node)) := by
  constructor
  · intro e he
    simp only [resolve_namespace, he]
  · intro cache_node hc
    constructor
    · intro hattr
      obtain ⟨n, h1, -, -⟩ := get_namespace_from_root_spec sc root_node hattr
      refine ⟨n, ?_⟩
      simp only [resolve_namespace, hc, h1]
      rw [if_neg (ns_candidate_ne_empty _ n)]
    · intro hattr
      have hnone : get_namespace_from_root sc root_node = none := by
        simp [get_namespace_from_root, hattr]
      simp only [resolve_namespace, hc, hnone]

/-- A scene whose root node is a prefab with both a `prefab_name` attribute
and a linked cache node. -/
def sceneC3w : Scene :=
  { namespaces := []
    nodes := ["root", "cacheN"]
    nodeTypes := [("root", "transform")]
    attrs := [("root", "isPrefab"), ("root", "usd_cycle_cache"), ("root", "prefab_name")]
    attrVals := [("root", "prefab_name", "base")]
    connections := [("root.usd_cycle_cache", "cacheN")]
    selection := []
    parents := []
    parentFails := [] }

/-- Witness for the amended C3 at a concrete scene. -/
theorem resolve_namespace_cache_first_witness :
    ∃ n, resolve_namespace sceneC3w "root" = Except.ok (ns_candidate "base" n) := by
  have h := ((resolve_namespace_cache_first sceneC3w "root").2 "cacheN" rfl).1 (by decide)
  exact h

/-! ## C5: the save validators -/

/-- The validation outcome of both save methods, as a function of the
filtered selection and the error message. -/
theorem validator_outcome (sel : List String) (msg : String) :
    (sel.length ≠ 1 →
      (if sel = [] ∨ sel.length > 1 then (Except.error msg : Except String Unit)
       else Except.ok ()) = Except.error msg) ∧
    (sel.length = 1 →
      (if sel = [] ∨ sel.length > 1 then (Except.error msg : Except String Unit)
       else Except.ok ()) = Except.ok ()) := by
  constructor
  · intro h
    rw [if_pos]
    rcases Nat.eq_zero_or_pos sel.length with h0 | hpos
    · exact Or.inl (List.length_eq_zero.mp h0)
    · right; omega
  · intro h
    rw [if_neg]
    rintro (rfl | hgt)
    · simp at h
    · omega

/-- C5: both save methods raise their validation error and attempt no save
exactly when the selection does not contain exactly one transform node
carrying the marker attribute (`isPrefab` / `isPrefabCluster`); with
exactly one such node they delegate to the generic file save. -/
theorem save_validators_require_single_selection (sc : Scene) :
    (((sc.selection.filter (fun x => nodeTypeOf sc x == "transform")).filter
        (fun x => attrExists sc x "isPrefab")).length ≠ 1 →
      PrefabItem_save sc = Except.error "Please select a single Prefab rig root transform.") ∧
    (((sc.selection.filter (fun x => nodeTypeOf sc x == "transform")).filter
        (fun x => attrExists sc x "isPrefab")).length = 1 →
      PrefabItem_save sc = Except.ok ()) ∧
    (((sc.selection.filter (fun x => nodeTypeOf sc x == "transform")).filter
        (fun x => attrExists sc x "isPrefabCluster")).length ≠ 1 →
      PrefabClusterItem_save sc = Except.error "Please select a single PrefabCluster transform.") ∧
    (((sc.selection.filter (fun x => nodeTypeOf sc x == "transform")).filter
        (fun x => attrExists sc x "isPrefabCluster")).length = 1 →
      PrefabClusterItem_save sc = Except.ok ()) :=
  ⟨(validator_outcome _ _).1, (validator_outcome _ _).2,
   (validator_outcome _ _).1, (validator_outcome _ _).2⟩

/-- A scene with two qualifying prefab roots selected. -/
def sceneC5 : Scene :=
  { namespaces := []
    nodes := ["p1", "p2"]
    nodeTypes := [("p1", "transform"), ("p2", "transform")]
    attrs := [("p1", "isPrefab"), ("p2", "isPrefab")]
    attrVals := []
    connections := []
    selection := ["p1", "p2"]
    parents := []
    parentFails := [] }

/-- Witness for C5: with two qualifying prefab roots selected both
validators fail (the cluster validator because zero cluster roots are
selected). -/
theorem save_validators_require_single_selection_witness :
    PrefabItem_save sceneC5 = Except.error "Please select a single Prefab rig root transform." ∧
    PrefabClusterItem_save sceneC5 =
      Except.error "Please select a single PrefabCluster transform." :=
  ⟨(save_validators_require_single_selection sceneC5).1 (by decide),
   (save_validators_require_single_selection sceneC5).2.2.1 (by decide)⟩

/-! ## C6: locating the imported root node -/

/-- Characterisation of `List.find?`: `none` means no element satisfies the
predicate, and `some r` means `r` is the first satisfying element. -/
theorem find_first_decomp {α : Type} (p : α → Bool) :
    ∀ l : List α,
      (l.find? p = none ↔ ∀ x ∈ l, p x = false) ∧
      (∀ r, l.find? p = some r → p r = true ∧
        ∃ pre post, l = pre ++ r :: post ∧ ∀ x ∈ pre, p x = false) := by
  intro l
  induction l with
  | nil => simp [List.find?]
  | cons a l ih =>
    by_cases hpa : p a
    · constructor
      · rw [List.find?_cons_of_pos _ hpa]
        simp only [reduceCtorEq, false_iff]
        intro hall
        have := hall a (List.mem_cons_self a l)
        rw [hpa] at this
        cases this
      · intro r hr
        rw [List.find?_cons_of_pos _ hpa] at hr
        cases hr
        exact ⟨hpa, [], l, rfl, by simp⟩
    · have hpa' : p a = false := Bool.of_not_eq_true hpa
      constructor
      · rw [List.find?_cons_of_neg _ (by simp [hpa'])]
        rw [ih.1]
        constructor
        · intro h x hx
          rcases List.mem_cons.mp hx with rfl | hx
          · exact hpa'
          · exact h x hx
        · intro h x hx
          exact h x (List.mem_cons_of_mem _ hx)
      · intro r hr
        rw [List.find?_cons_of_neg _ (by simp [hpa'])] at hr
        obtain ⟨hp, pre, post, hsplit, hpre⟩ := ih.2 r hr
        refine ⟨hp, a :: pre, post, by rw [List.cons_append, hsplit], ?_⟩
        intro x hx
        rcases List.mem_cons.mp hx with rfl | hx
        · exact hpa'
        · exact hpre x hx

/-- C6: provided that every imported node name is non-empty (always true in
the host), the load's root-locating stage returns the first imported node
of type `transform` carrying the marker attribute, and raises the fatal
"root node not found" error exactly when no imported node matches. -/
theorem locate_root_first_marker (sc : Scene) (new_nodes : List String)
    (marker errMsg : String) (hne : ∀ x ∈ new_nodes, x ≠ "") :
    (locate_root sc new_nodes marker errMsg = Except.error errMsg ↔
      ∀ x ∈ new_nodes, ¬(nodeTypeOf sc x = "transform" ∧ attrExists sc x marker = true)) ∧
    (∀ r, locate_root sc new_nodes marker errMsg = Except.ok r →
      nodeTypeOf sc r = "transform" ∧ attrExists sc r marker = true ∧
      ∃ pre post, new_nodes = pre ++ r :: post ∧
        ∀ x ∈ pre, ¬(nodeTypeOf sc x = "transform" ∧ attrExists sc x marker = true)) := by
  have hiff : ∀ x, (nodeTypeOf sc x == "transform" && attrExists sc x marker) = false ↔
      ¬(nodeTypeOf sc x = "transform" ∧ attrExists sc x marker = true) := by
    intro x
    constructor
    · intro hf ⟨h1, h2⟩
      rw [Bool.and_eq_false_iff] at hf
      rcases hf with hf | hf
      · rw [beq_eq_false_iff_ne] at hf
        exact hf h1
      · rw [h2] at hf
        cases hf
    · intro hn
      rcases hb : (nodeTypeOf sc x == "transform" && attrExists sc x marker) with - | -
      · rfl
      · rw [Bool.and_eq_true] at hb
        exact absurd ⟨beq_iff_eq.mp hb.1, hb.2⟩ hn
  constructor
  · unfold locate_root
    rcases hf : find_root_node sc new_nodes marker with - | r
    · simp only [true_iff]
      intro x hx
      have := ((find_first_decomp _ new_nodes).1.mp hf) x hx
      exact (hiff x).mp this
    · obtain ⟨hp, pre, post, hsplit, -⟩ := (find_first_decomp _ new_nodes).2 r hf
      have hrmem : r ∈ new_nodes := by
        rw [hsplit]
        exact List.mem_append_right _ (List.mem_cons_self _ _)
      have hre : r ≠ "" := hne r hrmem
      simp only [hre, if_false, reduceCtorEq, false_iff]
      intro hall
      rw [Bool.and_eq_true] at hp
      exact hall r hrmem ⟨beq_iff_eq.mp hp.1, hp.2⟩
  · intro r hr
    unfold locate_root at hr
    rcases hf : find_root_node sc new_nodes marker with - | r'
    · rw [hf] at hr
      cases hr
    · rw [hf] at hr
      obtain ⟨hp, pre, post, hsplit, hpre⟩ := (find_first_decomp _ new_nodes).2 r' hf
      have hrmem : r' ∈ new_nodes := by
        rw [hsplit]
        exact List.mem_append_right _ (List.mem_cons_self _ _)
      have hre : r' ≠ "" := hne r' hrmem
      simp only [hre, if_false, Except.ok.injEq] at hr
      cases hr
      rw [Bool.and_eq_true] at hp
      exact ⟨beq_iff_eq.mp hp.1, hp.2,
        pre, post, hsplit, fun x hx => (hiff x).mp (hpre x hx)⟩

/-- A scene for the C6 witness: the import produced a shape node first and
the marked root transform second. -/
def sceneC6 : Scene :=
  { namespaces := []
    nodes := ["PREFAB_IMPORT_TEMP:geo", "PREFAB_IMPORT_TEMP:root"]
    nodeTypes := [("PREFAB_IMPORT_TEMP:geo", "mesh"), ("PREFAB_IMPORT_TEMP:root", "transform")]
    attrs := [("PREFAB_IMPORT_TEMP:root", "isPrefab")]
    attrVals := []
    connections := []
    selection := []
    parents := []
    parentFails := [] }

/-- Witness for C6 at a concrete imported node list. -/
theorem locate_root_first_marker_witness :
    nodeTypeOf sceneC6 "PREFAB_IMPORT_TEMP:root" = "transform" ∧
    attrExists sceneC6 "PREFAB_IMPORT_TEMP:root" "isPrefab" = true ∧
    ∃ pre post,
      ["PREFAB_IMPORT_TEMP:geo", "PREFAB_IMPORT_TEMP:root"] = pre ++ "PREFAB_IMPORT_TEMP:root" :: post ∧
      ∀ x ∈ pre, ¬(nodeTypeOf sceneC6 x = "transform" ∧ attrExists sceneC6 x "isPrefab" = true) :=
  (locate_root_first_marker sceneC6 ["PREFAB_IMPORT_TEMP:geo", "PREFAB_IMPORT_TEMP:root"]
    "isPrefab" "Could not find the prefab root node" (by decide)).2
    "PREFAB_IMPORT_TEMP:root" rfl

/-! ## C8: `swap_namespace` -/

/-- Content moving: a node under `ns` is renamed under `target`. -/
theorem nsMove_moves (sc : Scene) (ns target rest : String)
    (h : ((ns ++ ":") ++ rest) ∈ sc.nodes) :
    ((target ++ ":") ++ rest) ∈ (nsMove sc ns target).nodes := by
  have hpre : (ns ++ ":").data.isPrefixOf ((ns ++ ":") ++ rest).data = true := by
    rw [String.data_append]
    exact List.isPrefixOf_iff_prefix.mpr (List.prefix_append _ _)
  have hdrop : (((ns ++ ":") ++ rest).data).drop (ns.data.length + 1) = rest.data := by
    have hlen : (ns ++ ":").data.length = ns.data.length + 1 := by
      rw [String.data_append]
      simp
    rw [String.data_append, ← hlen, List.drop_left]
  refine List.mem_map.mpr ⟨(ns ++ ":") ++ rest, h, ?_⟩
  simp only [hpre, if_true, hdrop]

/-- Content keeping: a node not under `ns` is untouched by the move. -/
theorem nsMove_keeps (sc : Scene) (ns target nd : String)
    (h : nd ∈ sc.nodes) (hpre : (ns ++ ":").data.isPrefixOf nd.data = false) :
    nd ∈ (nsMove sc ns target).nodes := by
  refine List.mem_map.mpr ⟨nd, h, ?_⟩
  simp only [hpre, Bool.false_eq_true, if_false]

/-- A scene with one namespace `A` holding one node. -/
def sceneC8 : Scene :=
  { namespaces := ["A"]
    nodes := ["A:x"]
    nodeTypes := []
    attrs := []
    attrVals := []
    connections := []
    selection := []
    parents := []
    parentFails := [] }

/-- C8 counterexample: for the pair `ns = target_ns = "A"` (with `A`
existing), the claim fails — after the swap the target namespace `A` is no
longer in the namespace table even though the content is still under it,
so the content was not moved into a live target namespace. -/
theorem swap_namespace_self_deletes_target :
    ∃ sc2, swap_namespace sceneC8 "A" "A" = Except.ok sc2 ∧
      "A" ∉ sc2.namespaces ∧ "A:x" ∈ sc2.nodes := by
  refine ⟨_, rfl, ?_, ?_⟩ <;> decide

/-- C8 amended: for `ns ≠ target_ns` the claim holds as stated — when `ns`
exists the contents are moved into `target_ns` (created when absent) and
`ns` is deleted; when `ns` does not exist an error is raised and no scene
is produced.  (For `ns = target_ns` the code deletes the namespace while
its renamed contents remain, as the counterexample shows.) -/
theorem swap_namespace_spec (sc : Scene) (ns target_ns : String) :
    (ns ∉ sc.namespaces → ∃ e, swap_namespace sc ns target_ns = Except.error e) ∧
    (ns ∈ sc.namespaces → ns ≠ target_ns →
      ∃ sc2, swap_namespace sc ns target_ns = Except.ok sc2 ∧
        target_ns ∈ sc2.namespaces ∧
        ns ∉ sc2.namespaces ∧
        (∀ rest, ((ns ++ ":") ++ rest) ∈ sc.nodes → ((target_ns ++ ":") ++ rest) ∈ sc2.nodes) ∧
        (∀ nd ∈ sc.nodes, (ns ++ ":").data.isPrefixOf nd.data = false → nd ∈ sc2.nodes)) := by
  constructor
  · intro hmem
    unfold swap_namespace
    rw [if_pos (by simp [nsExists, hmem])]
    exact ⟨_, rfl⟩
  · intro hmem hneq
    have hcond : ¬((!nsExists sc ns) = true) := by simp [nsExists, hmem]
    have htm : target_ns ∈
        (if !nsExists sc target_ns then nsAdd sc target_ns else sc).namespaces := by
      by_cases ht : nsExists sc target_ns = true
      · rw [if_neg (by simp [ht])]
        exact of_decide_eq_true ht
      · rw [if_pos (by simp [Bool.of_not_eq_true ht])]
        exact List.mem_cons_self _ _
    have hnodes : (if !nsExists sc target_ns then nsAdd sc target_ns else sc).nodes
        = sc.nodes := by
      by_cases ht : nsExists sc target_ns = true
      · rw [if_neg (by simp [ht])]
      · rw [if_pos (by simp [Bool.of_not_eq_true ht])]
        rfl
    refine ⟨nsRemove (nsMove (if !nsExists sc target_ns then nsAdd sc target_ns else sc)
      ns target_ns) ns, ?_, ?_, ?_, ?_, ?_⟩
    · unfold swap_namespace
      rw [if_neg hcond]
    · exact List.mem_filter.mpr ⟨htm, decide_eq_true (Ne.symm hneq)⟩
    · intro hns
      have := (List.mem_filter.mp hns).2
      simp at this
    · intro rest h
      rw [← hnodes] at h
      exact nsMove_moves _ ns target_ns rest h
    · intro nd hnd hpre
      rw [← hnodes] at hnd
      exact nsMove_keeps _ ns target_ns nd hnd hpre

/-- A scene holding an imported prefab under the temporary namespace. -/
def sceneC8w : Scene :=
  { namespaces := ["PREFAB_IMPORT_TEMP"]
    nodes := ["PREFAB_IMPORT_TEMP:rig"]
    nodeTypes := []
    attrs := []
    attrVals := []
    connections := []
    selection := []
    parents := []
    parentFails := [] }

/-- Witness for the amended C8: renaming the temporary import namespace to
a fresh target namespace. -/
theorem swap_namespace_spec_witness :
    ∃ sc2, swap_namespace sceneC8w "PREFAB_IMPORT_TEMP" "base_000" = Except.ok sc2 ∧
      "base_000" ∈ sc2.namespaces ∧
      "PREFAB_IMPORT_TEMP" ∉ sc2.namespaces ∧
      (("base_000" ++ ":") ++ "rig") ∈ sc2.nodes := by
  obtain ⟨sc2, h1, h2, h3, h4, -⟩ :=
    (swap_namespace_spec sceneC8w "PREFAB_IMPORT_TEMP" "base_000").2 (by decide) (by decide)
  exact ⟨sc2, h1, h2, h3, h4 "rig" (by decide)⟩

/-! ## C10: grouping never raises -/

/-- C10: `group_prefab` and `group_prefab_cluster` are total (they raise
nothing): the grouping transform is created when absent, a failing
`cmds.parent` is caught and reported as `False`, and otherwise the
parenting is recorded and `True` returned. -/
theorem group_prefab_never_raises (sc : Scene) (root_node group_name : String) :
    (group_name ∉ sc.nodes →
      group_name ∈ (group_prefab sc root_node group_name).2.nodes ∧
      group_name ∈ (group_prefab_cluster sc root_node group_name).2.nodes) ∧
    ((root_node, group_name) ∈ sc.parentFails →
      (group_prefab sc root_node group_name).1 = false ∧
      (group_prefab_cluster sc root_node group_name).1 = false) ∧
    ((root_node, group_name) ∉ sc.parentFails →
      (group_prefab sc root_node group_name).1 = true ∧
      (group_prefab_cluster sc root_node group_name).1 = true ∧
      (root_node, group_name) ∈ (group_prefab sc root_node group_name).2.parents ∧
      (root_node, group_name) ∈ (group_prefab_cluster sc root_node group_name).2.parents) := by
  refine ⟨?_, ?_, ?_⟩
  · intro hng
    have hobj : objExists sc group_name = false := by simp [objExists, hng]
    by_cases hpf : (root_node, group_name) ∈ sc.parentFails <;>
      constructor <;>
        simp [group_prefab, group_prefab_cluster, hobj, hpf]
  · intro hpf
    by_cases hobj : objExists sc group_name = true <;>
      constructor <;>
        simp [group_prefab, group_prefab_cluster, hobj, hpf, Bool.of_not_eq_true]
  · intro hpf
    by_cases hobj : objExists sc group_name = true <;>
      refine ⟨?_, ?_, ?_, ?_⟩ <;>
        simp [group_prefab, group_prefab_cluster, hobj, hpf, Bool.of_not_eq_true]

/-- A scene in which the group node is absent and the host would reject
the parenting operation. -/
def sceneC10 : Scene :=
  { namespaces := []
    nodes := ["rig:prefab"]
    nodeTypes := [("rig:prefab", "transform")]
    attrs := []
    attrVals := []
    connections := []
    selection := []
    parents := []
    parentFails := [("rig:prefab", "__Prefabs__")] }

/-- Witness for C10: the group is created even though the parenting then
fails, and the failure is reported as `False` rather than raised. -/
theorem group_prefab_never_raises_witness :
    "__Prefabs__" ∈ (group_prefab sceneC10 "rig:prefab" "__Prefabs__").2.nodes ∧
    (group_prefab sceneC10 "rig:prefab" "__Prefabs__").1 = false := by
  obtain ⟨h1, -⟩ := (group_prefab_never_raises sceneC10 "rig:prefab" "__Prefabs__").1 (by decide)
  obtain ⟨h2, -⟩ := (group_prefab_never_raises sceneC10 "rig:prefab" "__Prefabs__").2.1 (by decide)
  exact ⟨h1, h2⟩
